import Mathlib

/-!
Verification of the RAGCheck evaluation harness.

This file gives a shallow embedding, in Lean, of the core of the
RAGCheck repository:

* `src/evaluation/evaluator.py` — the judge-output parser
  (`parse_evaluation`), the concurrent batch evaluator
  (`evaluate_batch` / `process_question`) and the aggregator / reporter
  (`evaluate_rag_system`);
* `create_test.py` — the retry loop of `TestGenerator.create_tests`
  and the structured-response parser `TestGenerator.parse_response`.

Modelling conventions:

* Python strings are Lean `String`s.  The Python string methods used by
  the source (`strip`, `lower`, `replace`, `split`, `startswith`,
  substring membership, `capitalize`, `isdigit`) are re-implemented
  below on `String.data` by structural recursion, so that every
  definition evaluates inside the kernel.  Only the ASCII behaviour of
  these methods matters for the strings this program manipulates, and
  that is what the Lean counterparts implement.
* A Python callable that may raise is a Lean function into
  `Except String α`, the error carrying `str(e)`.
* Python `None` flowing through an `Optional[str]` is `Option.none`;
  f-string interpolation of such a value is `pyStr`.
* Float arithmetic on the small integer counts appearing here is
  modelled exactly, by `ℚ`.
* `asyncio.gather` is modelled by an explicit completion schedule: the
  tasks of a batch finish in an arbitrary order given by a schedule
  list, and the gathered output is read back in task order
  (see `runTasks` / `gather`).
-/

set_option maxRecDepth 8192

deriving instance DecidableEq for Except

/-! ## Python string primitives -/

/-- Whether `pat` is an infix of `l` (used for Python's
`needle in haystack` test). -/
def listInfixOf (pat : List Char) : List Char → Bool
  | [] => pat.isEmpty
  | c :: rest => pat.isPrefixOf (c :: rest) || listInfixOf pat rest

/-- Python's `needle in haystack` substring test. -/
def strContains (haystack needle : String) : Bool :=
  listInfixOf needle.data haystack.data

/-- Python's `s.startswith(pre)`. -/
def pyStartsWith (s pre : String) : Bool :=
  pre.data.isPrefixOf s.data

/-- Python's `s.strip()` (ASCII whitespace). -/
def pyStrip (s : String) : String :=
  String.mk (((s.data.dropWhile Char.isWhitespace).reverse.dropWhile
    Char.isWhitespace).reverse)

/-- Python's `s.lower()` (ASCII). -/
def pyLower (s : String) : String :=
  String.mk (s.data.map Char.toLower)

/-- Split `l` at the first occurrence of the non-empty pattern `pat`,
returning the parts before and after it; `none` when `pat` does not
occur.  `fuel` bounds the scan and is instantiated with `l.length`. -/
def breakOnAux (pat : List Char) : Nat → List Char → Option (List Char × List Char)
  | _, [] => if pat.isEmpty then some ([], []) else none
  | 0, _ => none
  | fuel + 1, c :: rest =>
    if pat.isPrefixOf (c :: rest) then
      some ([], List.drop pat.length (c :: rest))
    else
      match breakOnAux pat fuel rest with
      | none => none
      | some (pre, post) => some (c :: pre, post)

/-- Python's `s.split(sep, 1)` for a non-empty separator: the list has
one element when `sep` does not occur in `s`, two otherwise. -/
def pySplitOnce (sep s : String) : List String :=
  match breakOnAux sep.data s.data.length s.data with
  | none => [s]
  | some (pre, post) => [String.mk pre, String.mk post]

/-- Python's `s.split(sep)` for a non-empty separator: split at every
occurrence.  `fuel` is instantiated with the length of the remaining
text. -/
def pySplitAux (sep : List Char) : Nat → List Char → List (List Char)
  | _, [] => [[]]
  | 0, l => [l]
  | fuel + 1, c :: rest =>
    if sep.isPrefixOf (c :: rest) then
      [] :: pySplitAux sep fuel (List.drop sep.length (c :: rest))
    else
      match pySplitAux sep fuel rest with
      | [] => [[c]]
      | part :: parts => (c :: part) :: parts

/-- Python's `s.split(sep)` (non-empty separator). -/
def pySplit (s sep : String) : List String :=
  (pySplitAux sep.data s.data.length s.data).map String.mk

/-- Python's `s.replace(pat, rep)` for a non-empty pattern: replace all
(non-overlapping, left-to-right) occurrences. -/
def pyReplaceAux (pat rep : List Char) : Nat → List Char → List Char
  | _, [] => []
  | 0, l => l
  | fuel + 1, c :: rest =>
    if pat.isPrefixOf (c :: rest) then
      rep ++ pyReplaceAux pat rep fuel (List.drop pat.length (c :: rest))
    else
      c :: pyReplaceAux pat rep fuel rest

/-- Python's `s.replace(pat, rep)` (non-empty pattern). -/
def pyReplace (s pat rep : String) : String :=
  String.mk (pyReplaceAux pat.data rep.data s.data.length s.data)

/-- Python's `str.capitalize`: first character uppercased, the rest
lowercased (ASCII). -/
def pyCapitalize (s : String) : String :=
  match s.data with
  | [] => ""
  | c :: cs => String.mk (c.toUpper :: cs.map Char.toLower)

/-- Python's `''.join(filter(str.isdigit, line))`. -/
def digitsOf (line : String) : String :=
  String.mk (line.data.filter Char.isDigit)

/-- Numeric value of a list of decimal digits. -/
def digitsVal (l : List Char) : Nat :=
  l.foldl (fun acc c => acc * 10 + (c.toNat - '0'.toNat)) 0

/-- Interpolation of a Python `Optional[str]` value into an f-string:
`None` prints as `"None"`. -/
def pyStr : Option String → String
  | none => "None"
  | some s => s

example : pySplit "a\nbb\n" "\n" = ["a", "bb", ""] := by decide

example : pySplitOnce ":" "answer_1: A: B" = ["answer_1", " A: B"] := by decide

example : strContains "the score: 1" "score" = true := by decide

example : pyReplace "question_question_1" "question_" "" = "1" := by decide

/-! ## `parse_evaluation` (src/evaluation/evaluator.py, lines 21-64) -/

def DEFAULT_SCORE : String := "0"

def DEFAULT_EXPLANATION : String := "Failed to parse evaluation"

def SCORE_KEYWORDS : List String := ["score", "score:"]

def EXPLANATION_KEYWORDS : List String := ["explanation", "explanation:"]

/-- One iteration of the `for line in lines` loop of
`parse_evaluation`, acting on the `(score, explanation)` accumulator.
Both the score branch and the explanation branch may fire on the same
line, exactly as in the source; the `except IndexError: continue`
around the explanation split is the one-element case of
`pySplitOnce`. -/
def parse_eval_line (acc : String × String) (line : String) : String × String :=
  let score :=
    if SCORE_KEYWORDS.any (fun kw => strContains line kw) then
      if digitsOf line = "0" ∨ digitsOf line = "1" then digitsOf line else acc.1
    else acc.1
  let explanation :=
    if EXPLANATION_KEYWORDS.any (fun kw => strContains line kw) then
      match (pySplitOnce ":" line).get? 1 with
      | none => acc.2
      | some rest =>
          if pyStrip rest = "" then "" else pyCapitalize (pyStrip rest)
    else acc.2
  (score, explanation)

/-- The `if score not in ['0', '1']` reset at the end of
`parse_evaluation` (lines 52-54). -/
def pe_finalize (r : String × String) : String × String :=
  (if r.1 = "0" ∨ r.1 = "1" then r.1 else DEFAULT_SCORE, r.2)

/-- `parse_evaluation(evaluation_text)`: returns the `(score,
explanation)` pair.  The body of the Python `try` is total, so the
outer `except` branch is unreachable and not modelled. -/
def parse_evaluation (evaluation_text : String) : String × String :=
  if evaluation_text = "" then (DEFAULT_SCORE, DEFAULT_EXPLANATION)
  else
    pe_finalize (((pySplit (pyStrip evaluation_text) "\n").map
      (fun l => pyStrip (pyLower l))).foldl parse_eval_line
      (DEFAULT_SCORE, DEFAULT_EXPLANATION))

example : parse_evaluation "Score: 1\nExplanation: looks right" = ("1", "Looks right") := by
  decide

example : parse_evaluation "" = ("0", "Failed to parse evaluation") := by decide

example : parse_evaluation "Score: 11" = ("0", "Failed to parse evaluation") := by decide

/-! ## Data model: test-set rows and evaluation results -/

/-- One record of the test-set CSV, as produced by
`test_df.to_dict('records')`: columns id, question_num, question,
answer, filename. -/
structure Row where
  id : String
  question_num : String
  question : String
  answer : String
  filename : String
deriving DecidableEq, Repr

/-- A row used for out-of-range `List.getD` reads in the scheduler
model; it is never produced by a run. -/
def dummyRow : Row := ⟨"", "", "", "", ""⟩

/-- One result dictionary of `evaluate_batch`.  `rag_response` keeps
the raw value returned by the RAG query function, which may be Python
`None`; the sentinel written on the failure path is the string
`"ERROR"`. -/
structure EvalResult where
  question_id : String
  question_num : String
  question : String
  expected_answer : String
  rag_response : Option String
  score : String
  explanation : String
  source_file : String
deriving DecidableEq, Repr

def dummyResult : EvalResult := ⟨"", "", "", "", none, "", "", ""⟩

/-! ## `evaluate_batch` (src/evaluation/evaluator.py, lines 66-139) -/

/-- The f-string evaluation prompt built inside `process_question`
(lines 83-99), with the RAG response already interpolated. -/
def eval_prompt (question answer rag_response : String) : String :=
  "Evaluate if the RAG system's response includes the expected answer.\n\nQuestion: "
    ++ question
    ++ "\nExpected Answer: " ++ answer
    ++ "\nRAG System Response: " ++ rag_response
    ++ "\n\nInstructions:\n1. Compare the RAG response with the expected answer\n2. Score 1 if the RAG response includes the expected answer\n3. Score 0 if it does not include the expected answer\n4. Provide a brief explanation for your score\n\nYou must respond using EXACTLY this format:\nScore: [0 or 1]\nExplanation: [your brief explanation]\n\nDo not include any other text in your response."

/-- The dictionary built by the `except` branch of `process_question`
(lines 115-125). -/
def error_result (row : Row) (e : String) : EvalResult :=
  { question_id := row.id
    question_num := row.question_num
    question := row.question
    expected_answer := row.answer
    rag_response := some "ERROR"
    score := "0"
    explanation := "Error during evaluation: " ++ e
    source_file := row.filename }

/-- The dictionary built on the normal path of `process_question`
(lines 105-114). -/
def normal_result (row : Row) (rag_response : Option String)
    (evaluation : String) : EvalResult :=
  { question_id := row.id
    question_num := row.question_num
    question := row.question
    expected_answer := row.answer
    rag_response := rag_response
    score := (parse_evaluation evaluation).1
    explanation := (parse_evaluation evaluation).2
    source_file := row.filename }

/-- `process_question(row)` (lines 78-125).  The `try` block covers the
RAG call, the prompt construction, the judge call and the parse; a
raise from either external call lands in the `except` branch.
`parse_evaluation` itself is total, so it contributes no fault. -/
def process_question (rag_query_fn : String → Except String (Option String))
    (evaluator_model : String → Except String String) (row : Row) : EvalResult :=
  match rag_query_fn row.question with
  | .error e => error_result row e
  | .ok rag_response =>
    match evaluator_model (eval_prompt row.question row.answer (pyStr rag_response)) with
    | .error e => error_result row e
    | .ok evaluation => normal_result row rag_response evaluation

/-- The concurrent tasks of one `asyncio.gather` call, in the order in
which they happen to complete: `sched` lists the task indices in
completion order, and each completed task contributes its index
together with its result. -/
def runTasks (f : Row → EvalResult) (batch : List Row) (sched : List Nat) :
    List (Nat × EvalResult) :=
  sched.map (fun j => (j, f (batch.getD j dummyRow)))

/-- `asyncio.gather` semantics: whatever the completion order `sched`,
the gathered list is read back in task order (index 0 first). -/
def gather (f : Row → EvalResult) (batch : List Row) (sched : List Nat) :
    List EvalResult :=
  (List.range batch.length).filterMap
    (fun i => (runTasks f batch sched).lookup i)

/-- The `for i in range(0, len(questions), batch_size)` loop of
`evaluate_batch` (lines 128-137): take the next `batch_size` questions,
gather their concurrent tasks, append, recurse on the rest.  `fuel` is
instantiated with the question count; with `batch_size ≥ 1` it never
runs out. -/
def evaluate_batchAux (pq : Row → EvalResult) (batch_size : Nat)
    (scheds : Nat → List Nat) : Nat → Nat → List Row → List EvalResult
  | _, _, [] => []
  | 0, _, _ :: _ => []
  | fuel + 1, bIdx, q :: qs =>
    gather pq ((q :: qs).take batch_size) (scheds bIdx) ++
      evaluate_batchAux pq batch_size scheds fuel (bIdx + 1) ((q :: qs).drop batch_size)

/-- `evaluate_batch(questions, rag_query_fn, evaluator_model,
batch_size)` (lines 66-139), parameterised additionally by the
per-batch completion schedules `scheds` (batch index ↦ order in which
that batch's concurrent tasks finish).  The progress-bar updates have
no effect on the returned results and are not modelled. -/
def evaluate_batch (rag_query_fn : String → Except String (Option String))
    (evaluator_model : String → Except String String)
    (questions : List Row) (batch_size : Nat) (scheds : Nat → List Nat) :
    List EvalResult :=
  evaluate_batchAux (process_question rag_query_fn evaluator_model)
    batch_size scheds questions.length 0 questions

/-! ## Ordering of gathered results (claim C1) -/

theorem lookup_runTasks (f : Row → EvalResult) (batch : List Row)
    (sched : List Nat) (i : Nat) (hi : i ∈ sched) :
    (runTasks f batch sched).lookup i = some (f (batch.getD i dummyRow)) := by
  induction sched with
  | nil => cases hi
  | cons j rest ih =>
    by_cases hij : i = j
    · subst hij; simp [runTasks, List.lookup]
    · have hmem : i ∈ rest := by
        rcases List.mem_cons.mp hi with h | h
        · exact absurd h hij
        · exact h
      have hb : (i == j) = false := beq_eq_false_iff_ne.mpr hij
      simpa [runTasks, List.lookup, hb] using ih hmem

theorem filterMap_eq_map_of_forall {α β : Type} (l : List α)
    (F : α → Option β) (G : α → β) (h : ∀ a ∈ l, F a = some (G a)) :
    l.filterMap F = l.map G := by
  induction l with
  | nil => rfl
  | cons a l ih =>
    rw [List.filterMap_cons, h a (List.mem_cons_self a l), List.map_cons,
      ih (fun b hb => h b (List.mem_cons_of_mem a hb))]

theorem range_map_getD {α : Type} (l : List α) (d : α) :
    (List.range l.length).map (fun i => l.getD i d) = l := by
  induction l with
  | nil => rfl
  | cons a l ih =>
    rw [List.length_cons, List.range_succ_eq_map, List.map_cons, List.map_map]
    simp only [Function.comp_def, Nat.succ_eq_add_one, List.getD_cons_zero,
      List.getD_cons_succ]
    rw [ih]

/-- Whatever order the concurrent tasks of one batch complete in, the
gathered list equals the batch mapped in its original order. -/
theorem gather_perm (f : Row → EvalResult) (batch : List Row) (sched : List Nat)
    (h : sched.Perm (List.range batch.length)) :
    gather f batch sched = batch.map f := by
  rw [gather, filterMap_eq_map_of_forall _ _ (fun i => f (batch.getD i dummyRow))
    (fun i hi => lookup_runTasks f batch sched i (h.mem_iff.mpr hi))]
  have : (fun i => f (batch.getD i dummyRow)) = f ∘ (fun i => batch.getD i dummyRow) := rfl
  rw [this, ← List.map_map, range_map_getD]

/-- The batch loop with enough fuel and well-formed schedules maps the
question list in order. -/
theorem evaluate_batchAux_eq (pq : Row → EvalResult) (B : Nat)
    (scheds : Nat → List Nat) (hB : 1 ≤ B) :
    ∀ fuel bIdx qs, List.length qs ≤ fuel →
      (∀ k, qs.drop (k * B) ≠ [] →
        (scheds (bIdx + k)).Perm (List.range ((qs.drop (k * B)).take B).length)) →
      evaluate_batchAux pq B scheds fuel bIdx qs = qs.map pq := by
  intro fuel
  induction fuel with
  | zero =>
    intro bIdx qs hlen _
    have h0 : qs = [] := List.eq_nil_of_length_eq_zero (Nat.le_zero.mp hlen)
    subst h0; rfl
  | succ fuel ih =>
    intro bIdx qs hlen hsched
    match qs with
    | [] => rfl
    | q :: qs' =>
      have h0 : (scheds bIdx).Perm (List.range ((q :: qs').take B).length) := by
        simpa using hsched 0 (by simp)
      rw [evaluate_batchAux, gather_perm _ _ _ h0,
        ih (bIdx + 1) ((q :: qs').drop B) ?_ ?_, ← List.map_append,
        List.take_append_drop]
      · rw [List.length_drop]
        simp only [List.length_cons] at hlen ⊢
        omega
      · intro k hk
        have e : ((q :: qs').drop B).drop (k * B) = (q :: qs').drop ((k + 1) * B) := by
          rw [List.drop_drop]; congr 1; ring
        have e2 : bIdx + 1 + k = bIdx + (k + 1) := by omega
        rw [e, e2]
        exact hsched (k + 1) (by rw [← e]; exact hk)

/-- Shared form of the ordering result: with a batch size of at least
one and a permutation schedule for every non-empty batch, the batch
evaluator is the in-order map of `process_question`. -/
theorem evaluate_batch_eq_map
    (rag_query_fn : String → Except String (Option String))
    (evaluator_model : String → Except String String)
    (questions : List Row) (batch_size : Nat) (scheds : Nat → List Nat)
    (hB : 1 ≤ batch_size)
    (hsched : ∀ k, questions.drop (k * batch_size) ≠ [] →
      (scheds k).Perm
        (List.range ((questions.drop (k * batch_size)).take batch_size).length)) :
    evaluate_batch rag_query_fn evaluator_model questions batch_size scheds =
      questions.map (process_question rag_query_fn evaluator_model) :=
  evaluate_batchAux_eq (process_question rag_query_fn evaluator_model)
    batch_size scheds hB questions.length 0 questions le_rfl (by simpa using hsched)

/-- C1: for every list of N questions and every batch size B ≥ 1, and
every family of per-batch completion schedules (each a permutation of
the batch's task indices, i.e. regardless of which concurrent task
finishes first), `evaluate_batch` returns exactly N results, and the
i-th result is the evaluation of the i-th input question: batch order
and within-batch order are both preserved. -/
theorem evaluate_batch_preserves_order
    (rag_query_fn : String → Except String (Option String))
    (evaluator_model : String → Except String String)
    (questions : List Row) (batch_size : Nat) (scheds : Nat → List Nat)
    (hB : 1 ≤ batch_size)
    (hsched : ∀ k, questions.drop (k * batch_size) ≠ [] →
      (scheds k).Perm
        (List.range ((questions.drop (k * batch_size)).take batch_size).length)) :
    evaluate_batch rag_query_fn evaluator_model questions batch_size scheds =
      questions.map (process_question rag_query_fn evaluator_model) ∧
    (evaluate_batch rag_query_fn evaluator_model questions batch_size scheds).length =
      questions.length ∧
    ∀ i, (evaluate_batch rag_query_fn evaluator_model questions batch_size scheds).get? i =
      (questions.get? i).map (process_question rag_query_fn evaluator_model) := by
  have h := evaluate_batch_eq_map rag_query_fn evaluator_model questions
    batch_size scheds hB hsched
  refine ⟨h, ?_, ?_⟩
  · rw [h, List.length_map]
  · intro i; rw [h]; simp

/-- A RAG query function that echoes the question. -/
def ragEcho : String → Except String (Option String) := fun q => .ok (some q)

/-- A judge that always answers with score 1. -/
def judgeAlwaysOne : String → Except String String :=
  fun _ => .ok "Score: 1\nExplanation: ok"

def sampleRows : List Row :=
  [⟨"1", "1", "What is A?", "A", "doc.txt"⟩,
   ⟨"1", "2", "What is B?", "B", "doc.txt"⟩]

/-- A completion schedule in which task 1 finishes before task 0. -/
def schedRev : Nat → List Nat := fun _ => [1, 0]

theorem evaluate_batch_preserves_order_witness :
    evaluate_batch ragEcho judgeAlwaysOne sampleRows 2 schedRev =
      sampleRows.map (process_question ragEcho judgeAlwaysOne) ∧
    (evaluate_batch ragEcho judgeAlwaysOne sampleRows 2 schedRev).length = 2 := by
  have hs : ∀ k, sampleRows.drop (k * 2) ≠ [] →
      (schedRev k).Perm (List.range ((sampleRows.drop (k * 2)).take 2).length) := by
    intro k hk
    match k with
    | 0 => decide
    | k + 1 =>
      have hlen : sampleRows.length ≤ (k + 1) * 2 := by
        simp only [sampleRows, List.length_cons, List.length_nil]
        omega
      exact absurd (List.drop_eq_nil_of_le hlen) hk
  have h := evaluate_batch_preserves_order ragEcho judgeAlwaysOne sampleRows 2
    schedRev (by decide) hs
  exact ⟨h.1, h.2.1⟩

/-! ## Per-question failure isolation (claims C2, C8) -/

theorem get?_eq_some_getD {α : Type} (l : List α) (d : α) (k : Nat)
    (h : k < l.length) : l.get? k = some (l.getD k d) := by
  rw [List.getD_eq_get?]
  cases hc : l.get? k with
  | none =>
    have := List.get?_eq_none.mp hc
    omega
  | some v => rfl

/-- C2: if, while evaluating exactly one question among N (the one at
index k), the RAG call or the judge call raises, `evaluate_batch`
still returns N results; the k-th entry is the error record — with
`rag_response = "ERROR"`, `score = "0"` and an explanation naming the
fault — and every other entry is the normally evaluated record.  The
fault aborts neither the batch nor the run. -/
theorem single_fault_isolated
    (rag_query_fn : String → Except String (Option String))
    (evaluator_model : String → Except String String)
    (questions : List Row) (batch_size : Nat) (scheds : Nat → List Nat)
    (k : Nat) (e : String)
    (hB : 1 ≤ batch_size)
    (hsched : ∀ j, questions.drop (j * batch_size) ≠ [] →
      (scheds j).Perm
        (List.range ((questions.drop (j * batch_size)).take batch_size).length))
    (hk : k < questions.length)
    (hfault :
      rag_query_fn (questions.getD k dummyRow).question = .error e ∨
      ∃ r, rag_query_fn (questions.getD k dummyRow).question = .ok r ∧
        evaluator_model (eval_prompt (questions.getD k dummyRow).question
          (questions.getD k dummyRow).answer (pyStr r)) = .error e)
    (hothers : ∀ j, j < questions.length → j ≠ k →
      ∃ r t, rag_query_fn (questions.getD j dummyRow).question = .ok r ∧
        evaluator_model (eval_prompt (questions.getD j dummyRow).question
          (questions.getD j dummyRow).answer (pyStr r)) = .ok t) :
    (evaluate_batch rag_query_fn evaluator_model questions batch_size scheds).length =
      questions.length ∧
    (evaluate_batch rag_query_fn evaluator_model questions batch_size scheds).get? k =
      some (error_result (questions.getD k dummyRow) e) ∧
    (error_result (questions.getD k dummyRow) e).rag_response = some "ERROR" ∧
    (error_result (questions.getD k dummyRow) e).score = "0" ∧
    (error_result (questions.getD k dummyRow) e).explanation =
      "Error during evaluation: " ++ e ∧
    ∀ j, j < questions.length → j ≠ k →
      ∃ r t, rag_query_fn (questions.getD j dummyRow).question = .ok r ∧
        evaluator_model (eval_prompt (questions.getD j dummyRow).question
          (questions.getD j dummyRow).answer (pyStr r)) = .ok t ∧
        (evaluate_batch rag_query_fn evaluator_model questions batch_size scheds).get? j =
          some (normal_result (questions.getD j dummyRow) r t) := by
  have hmap := evaluate_batch_eq_map rag_query_fn evaluator_model questions
    batch_size scheds hB hsched
  have hlen : (evaluate_batch rag_query_fn evaluator_model questions batch_size
      scheds).length = questions.length := by
    rw [hmap, List.length_map]
  have hget : ∀ i, (evaluate_batch rag_query_fn evaluator_model questions
      batch_size scheds).get? i =
      (questions.get? i).map (process_question rag_query_fn evaluator_model) := by
    intro i; rw [hmap]; simp
  have hpqk : process_question rag_query_fn evaluator_model (questions.getD k dummyRow) =
      error_result (questions.getD k dummyRow) e := by
    rcases hfault with h | ⟨r, hr, hj⟩
    · rw [process_question, h]
    · rw [process_question, hr]
      show (match evaluator_model (eval_prompt (questions.getD k dummyRow).question
          (questions.getD k dummyRow).answer (pyStr r)) with
        | .error e => error_result (questions.getD k dummyRow) e
        | .ok evaluation => normal_result (questions.getD k dummyRow) r evaluation) =
        error_result (questions.getD k dummyRow) e
      rw [hj]
  refine ⟨hlen, ?_, rfl, rfl, rfl, ?_⟩
  · rw [hget k, get?_eq_some_getD questions dummyRow k hk]
    exact congrArg some hpqk
  · intro j hj hjk
    obtain ⟨r, t, hr, ht⟩ := hothers j hj hjk
    refine ⟨r, t, hr, ht, ?_⟩
    rw [hget j, get?_eq_some_getD questions dummyRow j hj]
    refine congrArg some ?_
    rw [process_question, hr]
    show (match evaluator_model (eval_prompt (questions.getD j dummyRow).question
        (questions.getD j dummyRow).answer (pyStr r)) with
      | .error e => error_result (questions.getD j dummyRow) e
      | .ok evaluation => normal_result (questions.getD j dummyRow) r evaluation) =
      normal_result (questions.getD j dummyRow) r t
    rw [ht]

/-- The evaluation prompt of `sampleRows`' second question under
`ragEcho`. -/
def promptB : String := eval_prompt "What is B?" "B" "What is B?"

/-- A judge that raises exactly on `sampleRows`' second question's
prompt and otherwise answers with score 1. -/
def judgeFailOnB : String → Except String String :=
  fun p => if p = promptB then .error "judge down" else .ok "Score: 1\nExplanation: ok"

theorem single_fault_isolated_witness :
    (evaluate_batch ragEcho judgeFailOnB sampleRows 2 schedRev).length = 2 ∧
    (evaluate_batch ragEcho judgeFailOnB sampleRows 2 schedRev).get? 1 =
      some (error_result (sampleRows.getD 1 dummyRow) "judge down") := by
  have hs : ∀ j, sampleRows.drop (j * 2) ≠ [] →
      (schedRev j).Perm (List.range ((sampleRows.drop (j * 2)).take 2).length) := by
    intro j hj
    match j with
    | 0 => decide
    | j + 1 =>
      have hlen : sampleRows.length ≤ (j + 1) * 2 := by
        simp only [sampleRows, List.length_cons, List.length_nil]
        omega
      exact absurd (List.drop_eq_nil_of_le hlen) hj
  have hfault :
      ragEcho (sampleRows.getD 1 dummyRow).question = .error "judge down" ∨
      ∃ r, ragEcho (sampleRows.getD 1 dummyRow).question = .ok r ∧
        judgeFailOnB (eval_prompt (sampleRows.getD 1 dummyRow).question
          (sampleRows.getD 1 dummyRow).answer (pyStr r)) = .error "judge down" := by
    exact Or.inr ⟨some "What is B?", rfl, by decide⟩
  have hothers : ∀ j, j < sampleRows.length → j ≠ 1 →
      ∃ r t, ragEcho (sampleRows.getD j dummyRow).question = .ok r ∧
        judgeFailOnB (eval_prompt (sampleRows.getD j dummyRow).question
          (sampleRows.getD j dummyRow).answer (pyStr r)) = .ok t := by
    intro j hj hjk
    match j with
    | 0 =>
      exact ⟨some "What is A?", "Score: 1\nExplanation: ok", rfl, by decide⟩
    | 1 => exact absurd rfl hjk
    | j + 2 => simp [sampleRows] at hj
  have h := single_fault_isolated ragEcho judgeFailOnB sampleRows 2 schedRev 1
    "judge down" (by decide) hs (by decide) hfault hothers
  exact ⟨h.1, h.2.1⟩

/-- C8: if the RAG query function returns Python `None` for a
question, `process_question` does not take the fault path: the judge
is called on the prompt interpolating `None` (the string `"None"`),
the result is the normal record whose `rag_response` is the returned
value `none` — not the `"ERROR"` sentinel — and its score is obtained
by parsing the judge's output. -/
theorem none_rag_response_is_not_fault
    (rag_query_fn : String → Except String (Option String))
    (evaluator_model : String → Except String String) (row : Row) (t : String)
    (hrag : rag_query_fn row.question = .ok none)
    (hjudge : evaluator_model (eval_prompt row.question row.answer "None") = .ok t) :
    process_question rag_query_fn evaluator_model row = normal_result row none t ∧
    (process_question rag_query_fn evaluator_model row).rag_response = none ∧
    (process_question rag_query_fn evaluator_model row).rag_response ≠ some "ERROR" ∧
    (process_question rag_query_fn evaluator_model row).score = (parse_evaluation t).1 := by
  have h : process_question rag_query_fn evaluator_model row = normal_result row none t := by
    rw [process_question, hrag]
    show (match evaluator_model (eval_prompt row.question row.answer (pyStr none)) with
      | .error e => error_result row e
      | .ok evaluation => normal_result row none evaluation) = _
    rw [show pyStr none = "None" from rfl, hjudge]
  refine ⟨h, ?_, ?_, ?_⟩ <;> rw [h]
  · rfl
  · intro hc
    exact Option.noConfusion hc
  · rfl

def ragNoIndex : String → Except String (Option String) := fun _ => .ok none

/-! ## Aggregation (src/evaluation/evaluator.py, lines 199-211; claim C3) -/

/-- Python's `int()` on a string of decimal digits (the only strings
the aggregator applies it to, since they pass the
`score in ['0','1']` filter). -/
def pyIntScore (s : String) : Nat := digitsVal s.data

/-- `sum(int(result['score']) for result in results if result['score']
in ['0','1'])` (line 209).  The first, immediately overwritten
`total_score` loop of lines 199-207 has no effect on the returned
value and is not modelled. -/
def total_score (results : List EvalResult) : Nat :=
  ((results.filter (fun r => r.score == "0" || r.score == "1")).map
    (fun r => pyIntScore r.score)).sum

/-- `sum(1 for result in results if result['score'] in ['0','1'])`
(line 210). -/
def valid_scores (results : List EvalResult) : Nat :=
  (results.filter (fun r => r.score == "0" || r.score == "1")).length

/-- `average_score = (total_score / valid_scores) * 100 if
valid_scores > 0 else 0.0` (line 211); the float arithmetic on these
integer counts is modelled exactly in `ℚ`. -/
def average_score (results : List EvalResult) : ℚ :=
  if valid_scores results > 0 then
    ((total_score results : ℚ) / (valid_scores results : ℚ)) * 100
  else 0

/-- Number of results carrying exactly the score string `v`. -/
def count_score (v : String) (results : List EvalResult) : Nat :=
  (results.filter (fun r => r.score == v)).length

/-- An evaluation result that carries the given score, with
uninteresting remaining fields. -/
def resWithScore (s : String) : EvalResult := ⟨"1", "1", "q", "a", some "r", s, "e", "f"⟩

/-- The aggregator input of the spec's concrete example: scores
`["1", "1", "0", "invalid", "0"]`. -/
def exampleResults : List EvalResult :=
  [resWithScore "1", resWithScore "1", resWithScore "0",
   resWithScore "invalid", resWithScore "0"]

theorem valid_scores_split (results : List EvalResult) :
    valid_scores results = count_score "0" results + count_score "1" results := by
  induction results with
  | nil => rfl
  | cons r rs ih =>
    by_cases h0 : r.score = "0"
    · simp [valid_scores, count_score, List.filter_cons, h0] at ih ⊢
      omega
    · by_cases h1 : r.score = "1"
      · simp [valid_scores, count_score, List.filter_cons, h0, h1] at ih ⊢
        omega
      · simp [valid_scores, count_score, List.filter_cons, h0, h1] at ih ⊢
        omega

theorem total_score_eq_count_ones (results : List EvalResult) :
    total_score results = count_score "1" results := by
  induction results with
  | nil => rfl
  | cons r rs ih =>
    have e0 : pyIntScore "0" = 0 := rfl
    have e1 : pyIntScore "1" = 1 := rfl
    by_cases h0 : r.score = "0"
    · simp [total_score, count_score, List.filter_cons, h0, e0] at ih ⊢
      omega
    · by_cases h1 : r.score = "1"
      · simp [total_score, count_score, List.filter_cons, h0, h1, e1] at ih ⊢
        omega
      · simp [total_score, count_score, List.filter_cons, h0, h1] at ih ⊢
        omega

/-- C3: the aggregated average equals 100 × (count of results scored
"1") / (count of results scored "0" or "1"); results with any other
score are excluded from the denominator rather than counted as zero;
with no validly scored result the average is 0 without a fault; and on
the spec's example scores `["1","1","0","invalid","0"]` the average is
50. -/
theorem average_score_formula (results : List EvalResult) :
    valid_scores results = count_score "0" results + count_score "1" results ∧
    average_score results =
      (if count_score "0" results + count_score "1" results = 0 then 0
       else 100 * (count_score "1" results : ℚ) /
         ((count_score "0" results + count_score "1" results : ℕ) : ℚ)) ∧
    average_score exampleResults = 50 := by
  refine ⟨valid_scores_split results, ?_, ?_⟩
  · rw [average_score, total_score_eq_count_ones, valid_scores_split]
    by_cases h : count_score "0" results + count_score "1" results = 0
    · rw [if_pos h, if_neg (by omega)]
    · rw [if_neg h, if_pos (by omega)]
      rw [div_mul_eq_mul_div, mul_comm]
  · rw [average_score, show valid_scores exampleResults = 4 from rfl,
      show total_score exampleResults = 2 from rfl]
    norm_num

/-! ## `evaluate_rag_system` (src/evaluation/evaluator.py, lines 141-233;
claims C9, C10) -/

/-- The Python exceptions `evaluate_rag_system` can raise. -/
inductive PyError
  | fileNotFoundError (msg : String)
  | valueError (msg : String)
  | indexError
deriving DecidableEq, Repr

/-- The observable outcome of one `evaluate_rag_system` call: the
returned average or the propagated exception, together with the files
it touched — `(path, some rows)` for a fully written report,
`(path, none)` for a file that `open(..., 'w')` created (or truncated)
without any row being written. -/
structure RunResult where
  outcome : Except PyError ℚ
  files : List (String × Option (List EvalResult))
deriving DecidableEq, Repr

/-- The output file name before the `results/` prefix: the caller's
`output_path` if supplied, else the timestamped default of lines
181-183. -/
def resolved_name : Option String → String → String
  | none, timestamp => "rag_evaluation_results_" ++ timestamp ++ ".csv"
  | some p, _ => p

/-- The `num_tests is not None and num_tests < 1` validation test of
line 172. -/
def num_tests_invalid : Option Nat → Bool
  | some n => decide (n < 1)
  | none => false

/-- The post-validation part of `evaluate_rag_system` (lines 175-233):
run the batch, compute the average, prepend `results/`, create the
file, and either fail on the header write (empty results) or write
everything and return the average. -/
def run_and_report (rag_query_fn : String → Except String (Option String))
    (evaluator_model : String → Except String String)
    (questions : List Row) (output_path : Option String) (batch_size : Nat)
    (timestamp : String) (scheds : Nat → List Nat) : RunResult :=
  let results := evaluate_batch rag_query_fn evaluator_model questions
    batch_size scheds
  let average := average_score results
  let final_path := "results/" ++ resolved_name output_path timestamp
  { outcome := match results with
      | [] => .error .indexError
      | _ :: _ => .ok average
    files := [(final_path,
      match results with
      | [] => none
      | _ :: _ => some results)] }

/-- `evaluate_rag_system(rag_query_fn, test_set_path, output_path,
batch_size, num_tests, evaluator_model)` (lines 141-233).  The test-set
file is abstracted as an existence flag plus its parsed rows; the
timestamp is a parameter.  Order of operations follows the source:
validation, row truncation (`test_df.head(num_tests)`), default name,
batch run, average, `results/` prefix, `open` (which creates the
file), then `csv.DictWriter(f, fieldnames=results[0].keys())` — which
raises `IndexError` on an empty result list, after the file exists but
before anything is written; the `except` clause re-raises. -/
def evaluate_rag_system (rag_query_fn : String → Except String (Option String))
    (evaluator_model : String → Except String String)
    (test_set_exists : Bool) (test_rows : List Row)
    (output_path : Option String) (batch_size : Nat) (num_tests : Option Nat)
    (timestamp : String) (scheds : Nat → List Nat) : RunResult :=
  if test_set_exists = false then
    { outcome := .error (.fileNotFoundError "Test set file not found"), files := [] }
  else if batch_size < 1 then
    { outcome := .error (.valueError "batch_size must be at least 1"), files := [] }
  else if num_tests_invalid num_tests = true then
    { outcome := .error (.valueError "num_tests must be at least 1"), files := [] }
  else
    run_and_report rag_query_fn evaluator_model
      (match num_tests with
        | some n => test_rows.take n
        | none => test_rows)
      output_path batch_size timestamp scheds

theorem append_ne_self (s t : String) (hs : s.data ≠ []) : s ++ t ≠ t := by
  intro h
  have hd : s.data ++ t.data = t.data := congrArg String.data h
  have hl := congrArg List.length hd
  rw [List.length_append] at hl
  exact hs (List.eq_nil_of_length_eq_zero (by omega))

/-- C9: whatever file `evaluate_rag_system` writes — for a
caller-supplied `output_path` as much as for the auto-generated
timestamped name — its path is `"results/"` prepended to the resolved
name; the literal caller-supplied path itself is never used. -/
theorem report_path_always_under_results_dir
    (rag_query_fn : String → Except String (Option String))
    (evaluator_model : String → Except String String)
    (test_set_exists : Bool) (test_rows : List Row)
    (output_path : Option String) (batch_size : Nat) (num_tests : Option Nat)
    (timestamp : String) (scheds : Nat → List Nat)
    (p : String) (c : Option (List EvalResult))
    (hmem : (p, c) ∈ (evaluate_rag_system rag_query_fn evaluator_model
      test_set_exists test_rows output_path batch_size num_tests timestamp
      scheds).files) :
    p = "results/" ++ resolved_name output_path timestamp ∧
    ∀ q, output_path = some q → p ≠ q := by
  have hrun : ∀ questions, (p, c) ∈ (run_and_report rag_query_fn evaluator_model
      questions output_path batch_size timestamp scheds).files →
      p = "results/" ++ resolved_name output_path timestamp := by
    intro questions hm
    have hf : (run_and_report rag_query_fn evaluator_model questions output_path
        batch_size timestamp scheds).files =
        [("results/" ++ resolved_name output_path timestamp,
          match evaluate_batch rag_query_fn evaluator_model questions batch_size
            scheds with
          | [] => none
          | _ :: _ => some (evaluate_batch rag_query_fn evaluator_model questions
              batch_size scheds))] := rfl
    rw [hf, List.mem_singleton] at hm
    exact congrArg Prod.fst hm
  have hp : p = "results/" ++ resolved_name output_path timestamp := by
    rw [evaluate_rag_system.eq_def] at hmem
    by_cases h1 : test_set_exists = false
    · rw [if_pos h1] at hmem; simp at hmem
    rw [if_neg h1] at hmem
    by_cases h2 : batch_size < 1
    · rw [if_pos h2] at hmem; simp at hmem
    rw [if_neg h2] at hmem
    by_cases h3 : num_tests_invalid num_tests = true
    · rw [if_pos h3] at hmem; simp at hmem
    · rw [if_neg h3] at hmem
      exact hrun _ hmem
  refine ⟨hp, fun q hq => ?_⟩
  rw [hp, hq]
  exact append_ne_self "results/" q (by decide)

theorem report_path_always_under_results_dir_witness :
    ("results/out.csv" : String) =
      "results/" ++ resolved_name (some "out.csv") "t0" ∧
    ("results/out.csv" : String) ≠ "out.csv" := by
  have hmem : (("results/out.csv" : String), (none : Option (List EvalResult))) ∈
      (evaluate_rag_system ragEcho judgeAlwaysOne true [] (some "out.csv") 1 none
        "t0" schedRev).files := by decide
  have h := report_path_always_under_results_dir ragEcho judgeAlwaysOne true []
    (some "out.csv") 1 none "t0" schedRev "results/out.csv" none hmem
  exact ⟨h.1, h.2 "out.csv" rfl⟩

/-- C10: on an existing test-set file with zero data rows (and
`batch_size ≥ 1`, `num_tests` absent or ≥ 1), `evaluate_rag_system`
does not return the 0.0 average it has just computed: the run ends
with an uncaught `IndexError` from the report-header write, with an
empty file already created at the output path. -/
theorem empty_test_set_raises_index_error
    (rag_query_fn : String → Except String (Option String))
    (evaluator_model : String → Except String String)
    (output_path : Option String) (batch_size : Nat) (num_tests : Option Nat)
    (timestamp : String) (scheds : Nat → List Nat)
    (hB : 1 ≤ batch_size)
    (hnt : num_tests = none ∨ ∃ n, num_tests = some n ∧ 1 ≤ n) :
    evaluate_rag_system rag_query_fn evaluator_model true [] output_path
        batch_size num_tests timestamp scheds =
      { outcome := .error .indexError,
        files := [("results/" ++ resolved_name output_path timestamp, none)] } ∧
    ∀ a : ℚ, (evaluate_rag_system rag_query_fn evaluator_model true [] output_path
        batch_size num_tests timestamp scheds).outcome ≠ .ok a := by
  have hmain : evaluate_rag_system rag_query_fn evaluator_model true [] output_path
      batch_size num_tests timestamp scheds =
      { outcome := .error .indexError,
        files := [("results/" ++ resolved_name output_path timestamp, none)] } := by
    rcases hnt with h | ⟨n, hn, h1⟩
    · subst h
      rw [evaluate_rag_system, if_neg (by simp), if_neg (by omega),
        if_neg (by simp [num_tests_invalid])]
      rfl
    · subst hn
      rw [evaluate_rag_system, if_neg (by simp), if_neg (by omega),
        if_neg (by simp only [num_tests_invalid, decide_eq_true_eq]; omega)]
      simp only [List.take_nil]
      rfl
  refine ⟨hmain, fun a h2 => ?_⟩
  rw [hmain] at h2
  exact Except.noConfusion h2

theorem empty_test_set_raises_index_error_witness :
    evaluate_rag_system ragEcho judgeAlwaysOne true [] (some "out.csv") 1 none
        "t0" schedRev =
      { outcome := .error .indexError,
        files := [("results/" ++ resolved_name (some "out.csv") "t0", none)] } :=
  (empty_test_set_raises_index_error ragEcho judgeAlwaysOne (some "out.csv") 1
    none "t0" schedRev (by decide) (Or.inl rfl)).1

theorem none_rag_response_is_not_fault_witness :
    process_question ragNoIndex judgeAlwaysOne ⟨"1", "1", "What is A?", "A", "doc.txt"⟩ =
      normal_result ⟨"1", "1", "What is A?", "A", "doc.txt"⟩ none
        "Score: 1\nExplanation: ok" ∧
    (process_question ragNoIndex judgeAlwaysOne
      ⟨"1", "1", "What is A?", "A", "doc.txt"⟩).rag_response = none := by
  have h := none_rag_response_is_not_fault ragNoIndex judgeAlwaysOne
    ⟨"1", "1", "What is A?", "A", "doc.txt"⟩ "Score: 1\nExplanation: ok" rfl rfl
  exact ⟨h.1, h.2.1⟩

/-! ## Score extraction (claim C4) -/

/-- Python's `s.endswith(suffix)`. -/
def pyEndsWith (s suffix : String) : Bool :=
  suffix.data.reverse.isPrefixOf s.data.reverse

/-- The score, if any, that one (already lowercased and stripped) line
contributes: the line must contain a score keyword and its digit
characters, taken together, must be exactly `"0"` or exactly `"1"`. -/
def accepted_score_of_line (line : String) : Option String :=
  if SCORE_KEYWORDS.any (fun kw => strContains line kw) ∧
      (digitsOf line = "0" ∨ digitsOf line = "1") then
    some (digitsOf line)
  else none

/-- The scores contributed by the successive lines of the input, in
order. -/
def accepted_score_digits (text : String) : List String :=
  ((pySplit (pyStrip text) "\n").map (fun l => pyStrip (pyLower l))).filterMap
    accepted_score_of_line

theorem accepted_score_of_line_values (l s : String)
    (h : accepted_score_of_line l = some s) : s = "0" ∨ s = "1" := by
  rw [accepted_score_of_line] at h
  split at h
  case isTrue hc => cases h; exact hc.2
  case isFalse hc => exact Option.noConfusion h

theorem parse_eval_line_score (init : String × String) (line : String) :
    (parse_eval_line init line).1 = (accepted_score_of_line line).getD init.1 := by
  by_cases hk : SCORE_KEYWORDS.any (fun kw => strContains line kw) = true
  · by_cases hd : digitsOf line = "0" ∨ digitsOf line = "1"
    · simp [parse_eval_line, accepted_score_of_line, hk, hd]
    · simp [parse_eval_line, accepted_score_of_line, hk, hd]
  · simp [parse_eval_line, accepted_score_of_line, hk]

theorem getLast?_getD_cons {α : Type} (xs : List α) :
    ∀ x d : α, ((x :: xs).getLast?).getD d = (xs.getLast?).getD x := by
  induction xs with
  | nil => intro x d; rfl
  | cons y ys ih =>
    intro x d
    rw [List.getLast?_cons_cons, ih y d, ih y x]

theorem foldl_parse_score (lines : List String) :
    ∀ init : String × String,
      (lines.foldl parse_eval_line init).1 =
        ((lines.filterMap accepted_score_of_line).getLast?).getD init.1 := by
  induction lines with
  | nil => intro init; rfl
  | cons l ls ih =>
    intro init
    rw [List.foldl_cons, ih (parse_eval_line init l), List.filterMap_cons]
    cases hacc : accepted_score_of_line l with
    | none =>
      have hs : (parse_eval_line init l).1 = init.1 := by
        rw [parse_eval_line_score, hacc]; rfl
      rw [hs]
    | some s =>
      have hs : (parse_eval_line init l).1 = s := by
        rw [parse_eval_line_score, hacc]; rfl
      rw [hs, getLast?_getD_cons]

theorem foldl_parse_score_mem (lines : List String) :
    ∀ init : String × String, init.1 = "0" ∨ init.1 = "1" →
      ((lines.foldl parse_eval_line init).1 = "0" ∨
        (lines.foldl parse_eval_line init).1 = "1") := by
  induction lines with
  | nil => intro init h; exact h
  | cons l ls ih =>
    intro init h
    rw [List.foldl_cons]
    apply ih
    rw [parse_eval_line_score]
    cases hacc : accepted_score_of_line l with
    | none => simpa using h
    | some s => simpa using accepted_score_of_line_values l s hacc

/-- C4 counterexample: the input `"Score: 11"` has a (lowercased,
stripped) line that contains a score keyword and trails with the digit
`"1"`, yet `parse_evaluation` extracts the default `"0"`, not that
trailing digit: the line's digit characters are `"11"`, which is
rejected. -/
theorem parse_score_trailing_digit_counterexample :
    pyStrip (pyLower "Score: 11") = "score: 11" ∧
    SCORE_KEYWORDS.any (fun kw => strContains "score: 11" kw) = true ∧
    pyEndsWith "score: 11" "1" = true ∧
    (parse_evaluation "Score: 11").1 = "0" ∧
    (parse_evaluation "Score: 11").1 ≠ "1" := by
  refine ⟨by decide, by decide, by decide, by decide, by decide⟩

/-- C4 (amended): for every input text, the extracted score is the
digit contributed by the last line that contains a score keyword and
whose digit characters are exactly `"0"` or exactly `"1"` — not merely
a trailing digit; if no line contributes (in particular if there is no
recognizable score line at all, or the text is empty), the result is
the default score `"0"`. -/
theorem parse_score_accepts_exact_digit_lines (text : String) :
    (parse_evaluation text).1 =
      ((accepted_score_digits text).getLast?).getD DEFAULT_SCORE := by
  rw [parse_evaluation, accepted_score_digits]
  by_cases h : text = ""
  · rw [if_pos h, h]
    rfl
  · rw [if_neg h, pe_finalize]
    have hmem := foldl_parse_score_mem
      ((pySplit (pyStrip text) "\n").map (fun l => pyStrip (pyLower l)))
      (DEFAULT_SCORE, DEFAULT_EXPLANATION) (Or.inl rfl)
    rw [if_pos hmem, foldl_parse_score]

/-! ## `TestGenerator.create_tests` retry loop (create_test.py, lines
56-81; claims C5, C6) -/

def max_retries : Nat := 5

/-- Python's `float()` restricted to the strings that reach it in the
retry loop: the candidate has already been split on `'.'`, so a
successful parse is exactly a non-empty string of decimal digits
(signs, exponents and underscores do not occur in the rate-limit
messages this models); any other string raises `ValueError`, modelled
as `none`. -/
def pyFloatDigits? (s : String) : Option ℚ :=
  if s.data ≠ [] ∧ s.data.all Char.isDigit then some (digitsVal s.data) else none

/-- The rate-limit wait-time computation of lines 67-73: start from the
default 60; if the exact text `"Please try again in"` occurs, take
what follows its first occurrence (up to any next occurrence), cut at
the first period, strip, and parse with `float`; a parse failure keeps
the default. -/
def extract_wait_time (error_message : String) : ℚ :=
  if strContains error_message "Please try again in" = true then
    match pyFloatDigits? (pyStrip ((pySplit
        ((pySplit error_message "Please try again in").getD 1 "") ".").getD 0 "")) with
    | some w => w
    | none => 60
  else 60

/-- Observable behaviour of one `create_tests` call: the returned
value or raised terminal error, the `time.sleep` durations performed
in order, and the number of `chain.invoke` calls made. -/
structure RetryTrace (α : Type) where
  result : Except String α
  waits : List ℚ
  attempts : Nat
deriving DecidableEq, Repr

/-- The `for attempt in range(max_retries)` loop of `create_tests`
(lines 59-81).  `attempt` is the index of the next invocation,
`remaining` the loop iterations left, `retry_delay` the current
exponential-backoff delay, `ws` the sleeps performed so far (most
recent first).  A rate-limit failure sleeps the extracted wait and
keeps the delay; any other failure sleeps the delay and doubles it;
after the loop the terminal error names the attempt count. -/
def create_tests_go {α : Type} (invoke : Nat → Except String α) :
    Nat → Nat → ℚ → List ℚ → RetryTrace α
  | attempt, 0, _, ws =>
    { result := .error ("Failed to complete after " ++ toString max_retries ++
        " attempts.")
      waits := ws.reverse
      attempts := attempt }
  | attempt, remaining + 1, retry_delay, ws =>
    match invoke attempt with
    | .ok v => { result := .ok v, waits := ws.reverse, attempts := attempt + 1 }
    | .error msg =>
      if strContains msg "rate_limit_exceeded" = true then
        create_tests_go invoke (attempt + 1) remaining retry_delay
          (extract_wait_time msg :: ws)
      else
        create_tests_go invoke (attempt + 1) remaining (retry_delay * 2)
          (retry_delay :: ws)

/-- `create_tests(context, id, num_tests)` (lines 18-81), abstracted
over the invocation: `invoke n` is what `chain.invoke(...)` does on the
(n+1)-st attempt.  The prompt construction has no bearing on the retry
behaviour; `max_retries = 5` and the initial `retry_delay = 2` are the
source's constants. -/
def create_tests {α : Type} (invoke : Nat → Except String α) : RetryTrace α :=
  create_tests_go invoke 0 max_retries 2 []

example : ("Failed to complete after " ++ toString max_retries ++ " attempts.") =
    "Failed to complete after 5 attempts." := by decide

/-- C5: for a generation function whose every invocation raises a
non-rate-limit error, `create_tests` makes exactly 5 attempts, sleeps
the doubling backoff after each (2, 4, 8, 16, 32), and then raises the
terminal error naming the attempt count 5; for a function that fails
twice (non-rate-limit) and then succeeds, it returns the success value
after exactly the two backoff waits 2 and 4. -/
theorem create_tests_retry_behaviour {α : Type}
    (f g : Nat → Except String α) (v : α)
    (hf : ∀ n, ∃ msg, f n = .error msg ∧
      strContains msg "rate_limit_exceeded" = false)
    (hg0 : ∃ msg, g 0 = .error msg ∧ strContains msg "rate_limit_exceeded" = false)
    (hg1 : ∃ msg, g 1 = .error msg ∧ strContains msg "rate_limit_exceeded" = false)
    (hg2 : g 2 = .ok v) :
    (create_tests f).attempts = 5 ∧
    (create_tests f).result = .error "Failed to complete after 5 attempts." ∧
    (create_tests f).waits = [2, 4, 8, 16, 32] ∧
    (create_tests g).result = .ok v ∧
    (create_tests g).waits = [2, 4] ∧
    (create_tests g).attempts = 3 := by
  obtain ⟨m0, hm0, hr0⟩ := hf 0
  obtain ⟨m1, hm1, hr1⟩ := hf 1
  obtain ⟨m2, hm2, hr2⟩ := hf 2
  obtain ⟨m3, hm3, hr3⟩ := hf 3
  obtain ⟨m4, hm4, hr4⟩ := hf 4
  obtain ⟨n0, hn0, hs0⟩ := hg0
  obtain ⟨n1, hn1, hs1⟩ := hg1
  have hfeq : create_tests f =
      { result := .error "Failed to complete after 5 attempts."
        waits := [2, 4, 8, 16, 32]
        attempts := 5 } := by
    have hmsg : ("Failed to complete after " ++ toString max_retries ++
        " attempts.") = "Failed to complete after 5 attempts." := by decide
    rw [create_tests, show max_retries = 5 from rfl]
    norm_num [create_tests_go, hm0, hm1, hm2, hm3, hm4, hr0, hr1, hr2, hr3, hr4,
      hmsg]
  have hgeq : create_tests g =
      { result := .ok v, waits := [2, 4], attempts := 3 } := by
    rw [create_tests, show max_retries = 5 from rfl]
    norm_num [create_tests_go, hn0, hn1, hg2, hs0, hs1]
  rw [hfeq, hgeq]
  exact ⟨rfl, rfl, rfl, rfl, rfl, rfl⟩

/-- A generation function that always fails with a non-rate-limit
error. -/
def genAlwaysFails : Nat → Except String String := fun _ => .error "boom"

/-- A generation function that fails twice and then succeeds. -/
def genFailsTwice : Nat → Except String String :=
  fun n => if n < 2 then .error "boom" else .ok "qa pairs"

theorem create_tests_retry_behaviour_witness :
    (create_tests genAlwaysFails).attempts = 5 ∧
    (create_tests genAlwaysFails).result =
      .error "Failed to complete after 5 attempts." ∧
    (create_tests genFailsTwice).result = .ok "qa pairs" ∧
    (create_tests genFailsTwice).waits = [2, 4] := by
  have h := create_tests_retry_behaviour genAlwaysFails genFailsTwice "qa pairs"
    (fun n => ⟨"boom", rfl, by decide⟩)
    ⟨"boom", by decide, by decide⟩
    ⟨"boom", by decide, by decide⟩
    (by decide)
  exact ⟨h.1, h.2.1, h.2.2.2.1, h.2.2.2.2.1⟩

/-- The wait duration as the claim's words prescribe it ("the numeric
value following the 'try again in' marker in the error text"): when
the marker occurs, parse the (stripped) text that follows it. -/
def claimed_wait_time (error_message : String) : Option ℚ :=
  if strContains error_message "try again in" = true then
    pyFloatDigits? (pyStrip ((pySplit error_message "try again in").getD 1 ""))
  else none

/-- A rate-limit error message that carries the claim's "try again in"
marker followed by the numeric value 7, but not the exact text the code
looks for. -/
def rlMsg : String := "rate_limit_exceeded: try again in 7"

/-- An invocation that fails once with `rlMsg` and then succeeds. -/
def rlInvoke : Nat → Except String String :=
  fun n => if n = 0 then .error rlMsg else .ok "done"

/-- C6 counterexample: the failure carries a rate-limit signal and its
text contains the "try again in" marker followed by the numeric value
7, yet the wait performed before retrying is the default 60, not 7:
the code only recognises the exact text "Please try again in". -/
theorem rate_limit_wait_counterexample :
    strContains rlMsg "rate_limit_exceeded" = true ∧
    strContains rlMsg "try again in" = true ∧
    claimed_wait_time rlMsg = some 7 ∧
    (create_tests rlInvoke).waits = [60] ∧
    (create_tests rlInvoke).result = .ok "done" ∧
    (60 : ℚ) ≠ 7 := by
  refine ⟨by decide, by decide, ?_, ?_, ?_, by norm_num⟩
  · have h : claimed_wait_time rlMsg = some ((7 : ℕ) : ℚ) := by decide
    rw [h]
    norm_num
  · have h : create_tests rlInvoke =
        { result := .ok "done", waits := [(60 : ℚ)], attempts := 2 } := by decide
    rw [h]
  · have h : create_tests rlInvoke =
        { result := .ok "done", waits := [(60 : ℚ)], attempts := 2 } := by decide
    rw [h]

/-- C6 (amended): on a rate-limit failure the wait performed before
retrying is `extract_wait_time` of the error text: the recognised
marker is the exact, case-sensitive text "Please try again in", the
candidate value is what follows the marker's first occurrence cut at
the first period and stripped, and the fixed default 60 is used
whenever the exact marker is absent or that candidate does not parse
as a number; so "... Please try again in 12. ..." waits 12 while
"... Please try again in 20s. ..." and any message without the exact
marker wait 60. -/
theorem rate_limit_wait_behaviour {α : Type} (invoke : Nat → Except String α)
    (msg : String) (v : α)
    (hrl : strContains msg "rate_limit_exceeded" = true)
    (h0 : invoke 0 = .error msg) (h1 : invoke 1 = .ok v) :
    (create_tests invoke).waits = [extract_wait_time msg] ∧
    (create_tests invoke).result = .ok v ∧
    (strContains msg "Please try again in" = false → extract_wait_time msg = 60) ∧
    extract_wait_time
      "Rate limit reached (rate_limit_exceeded). Please try again in 12. Bye" = 12 ∧
    extract_wait_time
      "Rate limit reached (rate_limit_exceeded). Please try again in 20s. Bye" = 60 := by
  refine ⟨?_, ?_, ?_, ?_, by decide⟩
  · rw [create_tests, show max_retries = 5 from rfl]
    norm_num [create_tests_go, h0, h1, hrl]
  · rw [create_tests, show max_retries = 5 from rfl]
    norm_num [create_tests_go, h0, h1, hrl]
  · intro h
    rw [extract_wait_time, if_neg (by rw [h]; exact Bool.false_ne_true)]
  · have h : extract_wait_time
        "Rate limit reached (rate_limit_exceeded). Please try again in 12. Bye" =
        ((12 : ℕ) : ℚ) := by decide
    rw [h]
    norm_num

theorem rate_limit_wait_behaviour_witness :
    (create_tests rlInvoke).waits = [extract_wait_time rlMsg] ∧
    (create_tests rlInvoke).result = .ok "done" ∧
    extract_wait_time rlMsg = 60 := by
  have h := rate_limit_wait_behaviour rlInvoke rlMsg "done" (by decide)
    (by decide) (by decide)
  exact ⟨h.1, h.2.1, h.2.2.1 (by decide)⟩

/-! ## `TestGenerator.parse_response` (create_test.py, lines 83-115;
claim C7) -/

/-- One parsed question/answer dictionary of `parse_response`. -/
structure QAPair where
  id : String
  question_num : String
  question : String
  answer : String
deriving DecidableEq, Repr

/-- The loop state of `parse_response`: `current_id`,
`current_question_num`, `current_question`, `current_answer` and the
accumulated `data` list. -/
structure ParseState where
  current_id : String
  current_question_num : String
  current_question : String
  current_answer : String
  data : List QAPair
deriving DecidableEq, Repr

def initParseState : ParseState := ⟨"", "", "", "", []⟩

/-- One iteration of the `for line in lines` loop of `parse_response`
(lines 96-114).  A `question_`/`answer_` line without a colon makes
`line.split(':', 1)[1]` raise an uncaught `IndexError`.  On an
emission the source resets `current_question` and `current_answer`
but not `current_question_num`. -/
def parse_response_line (st : ParseState) (line : String) :
    Except String ParseState :=
  if pyStartsWith line "id:" = true then
    .ok { st with current_id := pyStrip (pyReplace line "id:" "") }
  else if pyStartsWith line "question_" = true then
    match (pySplitOnce ":" line).get? 1 with
    | none => .error "IndexError: list index out of range"
    | some rest =>
      .ok { st with
        current_question_num :=
          pyStrip (pyReplace ((pySplitOnce ":" line).getD 0 "") "question_" "")
        current_question := pyStrip rest }
  else if pyStartsWith line "answer_" = true then
    if pyStrip (pyReplace ((pySplitOnce ":" line).getD 0 "") "answer_" "") =
        st.current_question_num then
      match (pySplitOnce ":" line).get? 1 with
      | none => .error "IndexError: list index out of range"
      | some rest =>
        .ok { st with
          current_question := ""
          current_answer := ""
          data := st.data ++ [⟨st.current_id, st.current_question_num,
            st.current_question, pyStrip rest⟩] }
    else .ok st
  else .ok st

/-- `parse_response(response_text)` (lines 83-115). -/
def parse_response (response_text : String) : Except String (List QAPair) :=
  ((pySplit (pyStrip response_text) "\n").foldlM parse_response_line
    initParseState).map (fun st => st.data)

/-- The per-line parser that the claim's words describe: identical to
`parse_response_line` except that emitting a `TestCase` resets the
whole pending state — the pending question number included. -/
def spec_parse_response_line (st : ParseState) (line : String) :
    Except String ParseState :=
  if pyStartsWith line "id:" = true then
    .ok { st with current_id := pyStrip (pyReplace line "id:" "") }
  else if pyStartsWith line "question_" = true then
    match (pySplitOnce ":" line).get? 1 with
    | none => .error "IndexError: list index out of range"
    | some rest =>
      .ok { st with
        current_question_num :=
          pyStrip (pyReplace ((pySplitOnce ":" line).getD 0 "") "question_" "")
        current_question := pyStrip rest }
  else if pyStartsWith line "answer_" = true then
    if pyStrip (pyReplace ((pySplitOnce ":" line).getD 0 "") "answer_" "") =
        st.current_question_num then
      match (pySplitOnce ":" line).get? 1 with
      | none => .error "IndexError: list index out of range"
      | some rest =>
        .ok { st with
          current_question_num := ""
          current_question := ""
          current_answer := ""
          data := st.data ++ [⟨st.current_id, st.current_question_num,
            st.current_question, pyStrip rest⟩] }
    else .ok st
  else .ok st

/-- The parser the claim's words describe, built on
`spec_parse_response_line`. -/
def spec_parse_response (response_text : String) : Except String (List QAPair) :=
  ((pySplit (pyStrip response_text) "\n").foldlM spec_parse_response_line
    initParseState).map (fun st => st.data)

/-- C7 counterexample: on a response whose `answer_1` line is repeated
after the emission, the source emits a second `TestCase` from the
stale pending question number — with an empty question — because
emitting resets the pending question text but not the pending
question number; under the claim's full reset the second `answer_1`
would match nothing and only one `TestCase` would be emitted. -/
theorem parse_response_reset_counterexample :
    parse_response "id: 5\nquestion_1: Q\nanswer_1: A\nanswer_1: B" =
      .ok [⟨"5", "1", "Q", "A"⟩, ⟨"5", "1", "", "B"⟩] ∧
    spec_parse_response "id: 5\nquestion_1: Q\nanswer_1: A\nanswer_1: B" =
      .ok [⟨"5", "1", "Q", "A"⟩] ∧
    parse_response "id: 5\nquestion_1: Q\nanswer_1: A\nanswer_1: B" ≠
      spec_parse_response "id: 5\nquestion_1: Q\nanswer_1: A\nanswer_1: B" := by
  refine ⟨by decide, by decide, by decide⟩

theorem parse_response_line_emits (st : ParseState) (line : String)
    (st' : ParseState) (h : parse_response_line st line = .ok st') :
    st'.data = st.data ∨
    (pyStartsWith line "answer_" = true ∧
      pyStrip (pyReplace ((pySplitOnce ":" line).getD 0 "") "answer_" "") =
        st.current_question_num ∧
      st'.data = st.data ++ [⟨st.current_id, st.current_question_num,
        st.current_question, pyStrip ((pySplitOnce ":" line).getD 1 "")⟩] ∧
      st'.current_question = "" ∧
      st'.current_question_num = st.current_question_num) := by
  rw [parse_response_line] at h
  by_cases h1 : pyStartsWith line "id:" = true
  · rw [if_pos h1] at h; cases h; exact Or.inl rfl
  rw [if_neg h1] at h
  by_cases h2 : pyStartsWith line "question_" = true
  · rw [if_pos h2] at h
    cases hm : (pySplitOnce ":" line).get? 1 with
    | none => rw [hm] at h; exact Except.noConfusion h
    | some rest => rw [hm] at h; cases h; exact Or.inl rfl
  rw [if_neg h2] at h
  by_cases h3 : pyStartsWith line "answer_" = true
  · rw [if_pos h3] at h
    by_cases h4 : pyStrip (pyReplace ((pySplitOnce ":" line).getD 0 "")
        "answer_" "") = st.current_question_num
    · rw [if_pos h4] at h
      cases hm : (pySplitOnce ":" line).get? 1 with
      | none => rw [hm] at h; exact Except.noConfusion h
      | some rest =>
        rw [hm] at h
        cases h
        refine Or.inr ⟨h3, h4, ?_, rfl, rfl⟩
        have hrest : (pySplitOnce ":" line).getD 1 "" = rest := by
          rw [List.getD_eq_get?, hm]; rfl
        rw [hrest]
    · rw [if_neg h4] at h; cases h; exact Or.inl rfl
  · rw [if_neg h3] at h; cases h; exact Or.inl rfl

theorem foldlM_no_answer_no_emit (lines : List String) :
    ∀ st : ParseState,
      (∀ l ∈ lines, pyStartsWith l "answer_" = false) →
      ∀ st', lines.foldlM parse_response_line st = .ok st' →
        st'.data = st.data := by
  induction lines with
  | nil =>
    intro st _ st' h
    cases h
    rfl
  | cons l ls ih =>
    intro st hno st' h
    rw [List.foldlM_cons] at h
    cases hstep : parse_response_line st l with
    | error e =>
      rw [hstep] at h
      exact Except.noConfusion h
    | ok st1 =>
      rw [hstep] at h
      have h' : ls.foldlM parse_response_line st1 = .ok st' := h
      have hd : st1.data = st.data := by
        rcases parse_response_line_emits st l st1 hstep with hsame | ⟨ha, _⟩
        · exact hsame
        · rw [hno l (List.mem_cons_self l ls)] at ha
          exact absurd ha Bool.false_ne_true
      rw [ih st1 (fun x hx => hno x (List.mem_cons_of_mem l hx)) st' h', hd]

/-- C7 (amended): in `TestGenerator.parse_response`, a `TestCase` is
emitted only when an `answer_N` line appears whose N equals the
current pending question number; emitting resets the pending question
text but not the pending question number, so a repeated `answer_N`
line after an emission emits a further `TestCase` with an empty
question; and an input whose lines contain no `answer_` line at all
emits nothing — a question line without its matching answer number is
silently dropped, never emitted partially. -/
theorem parse_response_emission_rules :
    (∀ (st : ParseState) (line : String) (st' : ParseState),
      parse_response_line st line = .ok st' →
      st'.data = st.data ∨
      (pyStartsWith line "answer_" = true ∧
        pyStrip (pyReplace ((pySplitOnce ":" line).getD 0 "") "answer_" "") =
          st.current_question_num ∧
        st'.data = st.data ++ [⟨st.current_id, st.current_question_num,
          st.current_question, pyStrip ((pySplitOnce ":" line).getD 1 "")⟩] ∧
        st'.current_question = "" ∧
        st'.current_question_num = st.current_question_num)) ∧
    (∀ (text : String) (res : List QAPair),
      (∀ l ∈ pySplit (pyStrip text) "\n", pyStartsWith l "answer_" = false) →
      parse_response text = .ok res → res = []) ∧
    parse_response "id: 5\nquestion_1: Q\nanswer_1: A\nanswer_1: B" =
      .ok [⟨"5", "1", "Q", "A"⟩, ⟨"5", "1", "", "B"⟩] := by
  refine ⟨parse_response_line_emits, ?_, by decide⟩
  intro text res hno h
  rw [parse_response] at h
  cases hf : (pySplit (pyStrip text) "\n").foldlM parse_response_line
      initParseState with
  | error e =>
    rw [hf] at h
    exact Except.noConfusion h
  | ok st' =>
    rw [hf] at h
    cases h
    exact foldlM_no_answer_no_emit _ initParseState hno st' hf

/-- The loop state right after `question_1: Q` has been read. -/
def stWitnessIn : ParseState := ⟨"", "1", "Q", "", []⟩

/-- The loop state after `answer_1: A` is then consumed. -/
def stWitnessOut : ParseState := ⟨"", "1", "", "", [⟨"", "1", "Q", "A"⟩]⟩

theorem parse_response_emission_rules_witness :
    stWitnessOut.data = stWitnessIn.data ∨
    (pyStartsWith "answer_1: A" "answer_" = true ∧
      pyStrip (pyReplace ((pySplitOnce ":" "answer_1: A").getD 0 "")
        "answer_" "") = stWitnessIn.current_question_num ∧
      stWitnessOut.data = stWitnessIn.data ++ [⟨stWitnessIn.current_id,
        stWitnessIn.current_question_num, stWitnessIn.current_question,
        pyStrip ((pySplitOnce ":" "answer_1: A").getD 1 "")⟩] ∧
      stWitnessOut.current_question = "" ∧
      stWitnessOut.current_question_num = stWitnessIn.current_question_num) :=
  parse_response_emission_rules.1 stWitnessIn "answer_1: A" stWitnessOut
    (by decide)
